import Mathlib

/-!
Verification of the standup3000 meeting/section/todo core (`src/db.py`).

The relational state is embedded shallowly: each SQL table becomes a list of
rows, and each `db.py` operation becomes a Lean function threading the state
explicitly.  `AUTOINCREMENT` primary keys are modelled with explicit
`next_*_id` counters, `datetime.utcnow()` by a `now : String` parameter, and
SQL `NULL` by `Option`.  `fetchone()` on an unordered query is modelled by
`List.find?` (first row in table order); `ORDER BY sort_order` by a stable
insertion sort.
-/

/-- A row of the `user` table (fields relevant to the core). -/
structure User where
  id : Nat
  username : String
  display_name : String
  role : String
  is_active : Bool
  deriving Repr, DecidableEq

/-- A row of the `department` table. -/
structure Department where
  id : Nat
  name : String
  sort_order : Nat
  is_special : Bool
  is_archived : Bool
  deriving Repr, DecidableEq

/-- A row of the `department_reporter` table. -/
structure DeptReporter where
  department_id : Nat
  user_id : Nat
  is_primary : Bool
  deriving Repr, DecidableEq

/-- A row of the `meeting` table. -/
structure Meeting where
  id : Nat
  date : String
  created_at : String
  status : String
  locked_by : Option Nat
  locked_at : Option String
  template_id : Option Nat
  deriving Repr, DecidableEq

/-- A row of the `section` table. -/
structure SectionRow where
  id : Nat
  meeting_id : Nat
  name : String
  reporter : String
  sort_order : Nat
  is_special : Bool
  content : String
  department_id : Option Nat
  reporter_id : Option Nat
  updated_at : Option String
  deriving Repr, DecidableEq

/-- A row of the `todo` table. -/
structure Todo where
  id : Nat
  section_id : Nat
  text : String
  done : Bool
  assigned_to : Option Nat
  due_date : Option String
  priority : String
  created_by : Option Nat
  created_at : String
  completed_at : Option String
  deriving Repr, DecidableEq

/-- A row of the `template_section` table. -/
structure TemplateSection where
  template_id : Nat
  department_id : Nat
  sort_order : Nat
  default_content : String
  deriving Repr, DecidableEq

/-- The database state: one list per table plus autoincrement counters. -/
structure DB where
  users : List User
  departments : List Department
  department_reporters : List DeptReporter
  meetings : List Meeting
  sections : List SectionRow
  todos : List Todo
  template_sections : List TemplateSection
  next_meeting_id : Nat
  next_section_id : Nat
  next_todo_id : Nat
  deriving Repr, DecidableEq

/-- `ORDER BY sort_order` over departments (stable sort of table order). -/
def sortDepartments (l : List Department) : List Department :=
  l.insertionSort (fun a b => a.sort_order ≤ b.sort_order)

/-- `ORDER BY sort_order` over sections. -/
def sortSections (l : List SectionRow) : List SectionRow :=
  l.insertionSort (fun a b => a.sort_order ≤ b.sort_order)

/-- `ORDER BY sort_order` over template sections. -/
def sortTemplateSections (l : List TemplateSection) : List TemplateSection :=
  l.insertionSort (fun a b => a.sort_order ≤ b.sort_order)

/-- `is_meeting_locked(meeting_id)`: missing meeting counts as unlocked. -/
def is_meeting_locked (db : DB) (meeting_id : Nat) : Bool :=
  match db.meetings.find? (fun m => m.id == meeting_id) with
  | none => false
  | some m => m.status == "locked"

/-- `can_edit_section(user, section)` from `src/db.py`.  The Python truthiness
tests `if section["reporter_id"]` and `if section["department_id"]` treat both
`NULL` and `0` as false, hence the explicit `!= 0` guards. -/
def can_edit_section (db : DB) (user : User) (s : SectionRow) : Bool :=
  if is_meeting_locked db s.meeting_id then false
  else if user.role == "admin" then true
  else if (match s.reporter_id with
           | some rid => rid != 0 && rid == user.id
           | none => false) then true
  else match s.department_id with
    | some did =>
      if did == 0 then false
      else (db.department_reporters.find?
              (fun dr => dr.department_id == did && dr.user_id == user.id)).isSome
    | none => false

/-- `set_department_reporters(dept_id, reporter_entries)`: deletes every
`department_reporter` row of the department, then inserts the given
`(user_id, is_primary)` pairs. -/
def set_department_reporters (db : DB) (dept_id : Nat)
    (reporter_entries : List (Nat × Bool)) : DB :=
  let kept := db.department_reporters.filter (fun dr => dr.department_id != dept_id)
  let inserted := reporter_entries.map (fun e => DeptReporter.mk dept_id e.1 e.2)
  { db with department_reporters := kept ++ inserted }

/-- The primary-reporter lookup shared by meeting creation: the join of
`department_reporter` (with `is_primary = 1`) against `user`, first row. -/
def primary_reporter (db : DB) (dept_id : Nat) : Option User :=
  (db.department_reporters.filterMap (fun dr =>
    if dr.department_id == dept_id && dr.is_primary then
      db.users.find? (fun u => u.id == dr.user_id)
    else none)).head?

/-- Display name stored in `section.reporter`: `""` when no primary reporter. -/
def reporterName : Option User → String
  | some u => u.display_name
  | none => ""

/-- Id stored in `section.reporter_id`: `NULL` when no primary reporter. -/
def reporterId : Option User → Option Nat
  | some u => some u.id
  | none => none

/-- `add_todo(section_id, text, ...)`: inserts a todo, normalizing any
priority outside low/normal/high to `"normal"`. -/
def add_todo (db : DB) (section_id : Nat) (text : String)
    (assigned_to : Option Nat) (due_date : Option String)
    (priority : String) (created_by : Option Nat) (now : String) : DB :=
  let p := if priority == "low" || priority == "normal" || priority == "high"
           then priority else "normal"
  { db with
      todos := db.todos ++
        [{ id := db.next_todo_id, section_id := section_id, text := text,
           done := false, assigned_to := assigned_to, due_date := due_date,
           priority := p, created_by := created_by, created_at := now,
           completed_at := none }],
      next_todo_id := db.next_todo_id + 1 }

/-- `toggle_todo(todo_id)`: flips `done`, setting `completed_at = now` on
completion and clearing it on un-completion; no-op when the todo is absent. -/
def toggle_todo (db : DB) (todo_id : Nat) (now : String) : DB :=
  match db.todos.find? (fun t => t.id == todo_id) with
  | none => db
  | some t =>
    if t.done then
      { db with todos := db.todos.map (fun u =>
          if u.id == todo_id then { u with done := false, completed_at := none } else u) }
    else
      { db with todos := db.todos.map (fun u =>
          if u.id == todo_id then { u with done := true, completed_at := some now } else u) }

/-- Section built for a department at blank meeting creation: snapshots the
department's name, sort order, special flag and its current primary
reporter, with empty content. -/
def mkDeptSection (db : DB) (mid sid : Nat) (d : Department) : SectionRow :=
  let rep := primary_reporter db d.id
  { id := sid, meeting_id := mid, name := d.name, reporter := reporterName rep,
    sort_order := d.sort_order, is_special := d.is_special, content := "",
    department_id := some d.id, reporter_id := reporterId rep, updated_at := none }

/-- The per-department section inserts of `create_meeting`, assigning
consecutive fresh section ids. -/
def buildDeptSections (db : DB) (mid : Nat) : Nat → List Department → List SectionRow
  | _, [] => []
  | sid, d :: rest => mkDeptSection db mid sid d :: buildDeptSections db mid (sid + 1) rest

/-- `DEFAULT_SECTIONS`: the fixed fallback layout used when the (non-archived)
department table is empty. -/
def DEFAULT_SECTIONS : List (String × String × Bool) :=
  [("Engineering", "", false), ("Design", "", false), ("Product", "", false),
   ("QA", "", false), ("Infrastructure", "", false), ("Support", "", false),
   ("Operations", "", false), ("PTO / Out of Office", "", true), ("Shoutouts", "", true)]

/-- Materialize one `DEFAULT_SECTIONS` entry at list position `i`. -/
def mkDefaultSection (mid sid i : Nat) (e : String × String × Bool) : SectionRow :=
  { id := sid, meeting_id := mid, name := e.1, reporter := e.2.1, sort_order := i,
    is_special := e.2.2, content := "", department_id := none, reporter_id := none,
    updated_at := none }

/-- The fallback section inserts of `create_meeting`. -/
def buildDefaultSections (mid : Nat) : Nat → Nat → List (String × String × Bool) → List SectionRow
  | _, _, [] => []
  | sid, i, e :: rest => mkDefaultSection mid sid i e :: buildDefaultSections mid (sid + 1) (i + 1) rest

/-- Sections copied verbatim (content included) by the `copy_from` branch of
`create_meeting`; the copies get fresh ids and a `NULL` `updated_at`. -/
def copySectionList (mid : Nat) : Nat → List SectionRow → List SectionRow
  | _, [] => []
  | sid, s :: rest =>
    { s with id := sid, meeting_id := mid, updated_at := none } :: copySectionList mid (sid + 1) rest

/-- `create_meeting(meeting_date, copy_from)` from `src/db.py`.

The `UNIQUE` constraint on `meeting.date` is modelled as an up-front lookup:
a duplicate date makes the whole call a no-op returning `none`.  Note that
the `copy_from` lookup runs after the new meeting row is inserted (as in the
source), and that Python truthiness makes an empty `copy_from` string behave
like `None`. -/
def create_meeting (db : DB) (meeting_date : String) (copy_from : Option String)
    (now : String) : Option Nat × DB :=
  if (db.meetings.find? (fun m => m.date == meeting_date)).isSome then (none, db)
  else
    let mid := db.next_meeting_id
    let newMeeting : Meeting :=
      { id := mid, date := meeting_date, created_at := now, status := "open",
        locked_by := none, locked_at := none, template_id := none }
    let db1 := { db with meetings := db.meetings ++ [newMeeting], next_meeting_id := mid + 1 }
    let copied : Option (Option Nat × DB) :=
      match copy_from with
      | some cf =>
        if cf == "" then none
        else
          match db1.meetings.find? (fun m => m.date == cf) with
          | some prev =>
            let prevSections := sortSections (db1.sections.filter (fun s => s.meeting_id == prev.id))
            let newSecs := copySectionList mid db1.next_section_id prevSections
            some (some mid,
              { db1 with
                sections := db1.sections ++ newSecs,
                next_section_id := db1.next_section_id + newSecs.length })
          | none => none
      | none => none
    match copied with
    | some r => r
    | none =>
      let depts := sortDepartments (db1.departments.filter (fun d => d.is_archived = false))
      if depts.isEmpty then
        let newSecs := buildDefaultSections mid db1.next_section_id 0 DEFAULT_SECTIONS
        (some mid,
          { db1 with
            sections := db1.sections ++ newSecs,
            next_section_id := db1.next_section_id + newSecs.length })
      else
        let newSecs := buildDeptSections db1 mid db1.next_section_id depts
        (some mid,
          { db1 with
            sections := db1.sections ++ newSecs,
            next_section_id := db1.next_section_id + newSecs.length })

/-- The target-section search of `carry_forward_todo`: first by the original
section's `department_id` (Python truthiness: `NULL` and `0` both skip the
department lookup), falling back to equal section name. -/
def find_target_section (db : DB) (target_meeting_id : Nat) (orig : SectionRow) :
    Option SectionRow :=
  let byDept : Option SectionRow :=
    match orig.department_id with
    | some did =>
      if did == 0 then none
      else db.sections.find?
             (fun s => s.meeting_id == target_meeting_id && s.department_id == some did)
    | none => none
  match byDept with
  | some ts => some ts
  | none =>
    db.sections.find? (fun s => s.meeting_id == target_meeting_id && s.name == orig.name)

/-- `carry_forward_todo(todo_id, target_meeting_id)`: copies the todo into the
matching section of the target meeting and marks the original done; returns
`none` and changes nothing when the todo, its section, or a matching target
section is missing. -/
def carry_forward_todo (db : DB) (todo_id target_meeting_id : Nat) (now : String) :
    Option Nat × DB :=
  match db.todos.find? (fun t => t.id == todo_id) with
  | none => (none, db)
  | some original =>
    match db.sections.find? (fun s => s.id == original.section_id) with
    | none => (none, db)
    | some orig_section =>
      match find_target_section db target_meeting_id orig_section with
      | none => (none, db)
      | some target_section =>
        let new_id := db.next_todo_id
        let newTodo : Todo :=
          { id := new_id, section_id := target_section.id, text := original.text,
            done := false, assigned_to := original.assigned_to,
            due_date := original.due_date, priority := original.priority,
            created_by := original.created_by, created_at := now, completed_at := none }
        let todos1 := (db.todos ++ [newTodo]).map (fun t =>
          if t.id == todo_id then { t with done := true, completed_at := some now } else t)
        (some new_id, { db with todos := todos1, next_todo_id := new_id + 1 })

/-- Section built for a template section whose department is alive: snapshots
the department's name and special flag, the template row's sort order and
default content, and the department's current primary reporter. -/
def mkTemplateSectionRow (db : DB) (mid sid : Nat) (d : Department) (ts : TemplateSection) :
    SectionRow :=
  let rep := primary_reporter db d.id
  { id := sid, meeting_id := mid, name := d.name, reporter := reporterName rep,
    sort_order := ts.sort_order, is_special := d.is_special, content := ts.default_content,
    department_id := some d.id, reporter_id := reporterId rep, updated_at := none }

/-- The section inserts of `create_meeting_from_template`: template sections
whose department is deleted or archived are skipped. -/
def buildTemplateSections (db : DB) (mid : Nat) : Nat → List TemplateSection → List SectionRow
  | _, [] => []
  | sid, ts :: rest =>
    match db.departments.find? (fun d => d.id == ts.department_id) with
    | none => buildTemplateSections db mid sid rest
    | some d =>
      if d.is_archived then buildTemplateSections db mid sid rest
      else mkTemplateSectionRow db mid sid d ts :: buildTemplateSections db mid (sid + 1) rest

/-- `create_meeting_from_template(meeting_date, template_id)` from `src/db.py`;
the duplicate-date `IntegrityError` (with rollback) is modelled as an up-front
lookup making the call a no-op returning `none`. -/
def create_meeting_from_template (db : DB) (meeting_date : String) (template_id : Nat)
    (now : String) : Option Nat × DB :=
  if (db.meetings.find? (fun m => m.date == meeting_date)).isSome then (none, db)
  else
    let mid := db.next_meeting_id
    let newMeeting : Meeting :=
      { id := mid, date := meeting_date, created_at := now, status := "open",
        locked_by := none, locked_at := none, template_id := some template_id }
    let tss := sortTemplateSections
      (db.template_sections.filter (fun ts => ts.template_id == template_id))
    let newSecs := buildTemplateSections db mid db.next_section_id tss
    (some mid,
      { db with
        meetings := db.meetings ++ [newMeeting],
        sections := db.sections ++ newSecs,
        next_meeting_id := mid + 1,
        next_section_id := db.next_section_id + newSecs.length })

/-! ## Concrete fixtures used by witnesses and counterexamples -/

/-- Sample member user Alice (primary reporter of Engineering below). -/
def uAlice : User :=
  { id := 1, username := "alice", display_name := "Alice", role := "member", is_active := true }

/-- Sample member user Bob (no reporter assignments). -/
def uBob : User :=
  { id := 2, username := "bob", display_name := "Bob", role := "member", is_active := true }

/-- Sample admin user. -/
def uRoot : User :=
  { id := 3, username := "root", display_name := "Root", role := "admin", is_active := true }

/-- Sample department. -/
def dEng : Department :=
  { id := 1, name := "Engineering", sort_order := 0, is_special := false, is_archived := false }

/-- Sample meeting dated 2026-03-01. -/
def mEx : Meeting :=
  { id := 1, date := "2026-03-01", created_at := "T0", status := "open",
    locked_by := none, locked_at := none, template_id := none }

/-- The Engineering section of `mEx`, snapshotting Alice as reporter. -/
def sEng : SectionRow :=
  { id := 1, meeting_id := 1, name := "Engineering", reporter := "Alice", sort_order := 0,
    is_special := false, content := "", department_id := some 1, reporter_id := some 1,
    updated_at := none }

/-- An open todo in `sEng`. -/
def tShip : Todo :=
  { id := 1, section_id := 1, text := "Ship v2", done := false, assigned_to := some 1,
    due_date := some "2026-03-05", priority := "high", created_by := some 2,
    created_at := "T0", completed_at := none }

/-- Main concrete state: one department with primary reporter Alice, one
meeting with its Engineering section, one open todo. -/
def dbMain : DB :=
  { users := [uAlice, uBob, uRoot], departments := [dEng],
    department_reporters := [{ department_id := 1, user_id := 1, is_primary := true }],
    meetings := [mEx], sections := [sEng], todos := [tShip], template_sections := [],
    next_meeting_id := 2, next_section_id := 2, next_todo_id := 2 }

/-- The Engineering section of the follow-up meeting below. -/
def sEng2 : SectionRow :=
  { id := 2, meeting_id := 2, name := "Engineering", reporter := "Alice",
    sort_order := 0, is_special := false, content := "", department_id := some 1,
    reporter_id := some 1, updated_at := none }

/-- `dbMain` extended with a second meeting whose section matches `sEng` by
department. -/
def dbCarry : DB :=
  { dbMain with
    meetings := dbMain.meetings ++
      [{ id := 2, date := "2026-03-08", created_at := "T1", status := "open",
         locked_by := none, locked_at := none, template_id := none }],
    sections := dbMain.sections ++ [sEng2],
    next_meeting_id := 3,
    next_section_id := 3 }

/-- A template section layout referencing the Engineering department. -/
def tsEng : TemplateSection :=
  { template_id := 7, department_id := 1, sort_order := 0, default_content := "- updates" }

/-- A template section whose department id matches nothing. -/
def tsGone : TemplateSection :=
  { template_id := 7, department_id := 99, sort_order := 1, default_content := "gone" }

/-- `dbMain` with template 7 holding one live and one dangling section. -/
def dbTpl : DB :=
  { dbMain with template_sections := [tsEng, tsGone] }

/-- State whose only department is archived: non-archived departments are
zero while the department table is non-empty. -/
def dbAllArchived : DB :=
  { users := [], departments := [{ dEng with is_archived := true }],
    department_reporters := [], meetings := [], sections := [], todos := [],
    template_sections := [], next_meeting_id := 1, next_section_id := 1, next_todo_id := 1 }

/-! ## Claim theorems -/

/-- C6: replacing a department's reporter set via `set_department_reporters`
leaves the `section` table — hence every field of every existing section,
including the snapshotted `reporter` and `reporter_id` — unchanged. -/
theorem set_department_reporters_preserves_sections (db : DB) (dept_id : Nat)
    (reporter_entries : List (Nat × Bool)) :
    (set_department_reporters db dept_id reporter_entries).sections = db.sections := rfl

/-- C4: `create_meeting` on a date that already has a meeting returns no
identifier and leaves the whole state — the existing meeting, its sections,
and the meeting count — unchanged. -/
theorem create_meeting_duplicate_date (db : DB) (d : String) (cf : Option String)
    (now : String) (h : (db.meetings.find? (fun m => m.date == d)).isSome) :
    create_meeting db d cf now = (none, db) := by
  unfold create_meeting
  rw [if_pos h]

/-- Witness for C4 at a concrete state already holding a meeting dated
2026-03-01. -/
theorem create_meeting_duplicate_date_witness :
    (dbMain.meetings.find? (fun m => m.date == "2026-03-01")).isSome = true ∧
    create_meeting dbMain "2026-03-01" none "T9" = (none, dbMain) :=
  ⟨by decide, create_meeting_duplicate_date dbMain "2026-03-01" none "T9" (by decide)⟩

/-- C9: `add_todo` stores priority `"normal"` whenever the requested priority
is outside low/normal/high, and stores the requested priority unchanged when
it is one of the three. -/
theorem add_todo_priority_normalization (db : DB) (section_id : Nat) (text : String)
    (assigned_to : Option Nat) (due_date : Option String) (priority : String)
    (created_by : Option Nat) (now : String) :
    ((priority ≠ "low" ∧ priority ≠ "normal" ∧ priority ≠ "high") →
      (add_todo db section_id text assigned_to due_date priority created_by now).todos =
        db.todos ++
          [{ id := db.next_todo_id, section_id := section_id, text := text, done := false,
             assigned_to := assigned_to, due_date := due_date, priority := "normal",
             created_by := created_by, created_at := now, completed_at := none }]) ∧
    ((priority = "low" ∨ priority = "normal" ∨ priority = "high") →
      (add_todo db section_id text assigned_to due_date priority created_by now).todos =
        db.todos ++
          [{ id := db.next_todo_id, section_id := section_id, text := text, done := false,
             assigned_to := assigned_to, due_date := due_date, priority := priority,
             created_by := created_by, created_at := now, completed_at := none }]) := by
  constructor
  · rintro ⟨h1, h2, h3⟩
    simp [add_todo, h1, h2, h3]
  · rintro (h | h | h) <;> simp [add_todo, h]

/-- Witness for C9 at the invalid priority `"ULTRA"`. -/
theorem add_todo_priority_normalization_witness :
    ("ULTRA" ≠ "low" ∧ "ULTRA" ≠ "normal" ∧ "ULTRA" ≠ "high") ∧
    (add_todo dbMain 1 "Ship v3" none none "ULTRA" none "T9").todos =
      dbMain.todos ++
        [{ id := dbMain.next_todo_id, section_id := 1, text := "Ship v3", done := false,
           assigned_to := none, due_date := none, priority := "normal",
           created_by := none, created_at := "T9", completed_at := none }] :=
  ⟨by decide,
   (add_todo_priority_normalization dbMain 1 "Ship v3" none none "ULTRA" none "T9").1
     (by decide)⟩

/-- C3: when the target meeting has no section matching the todo's originating
section by department nor by name, `carry_forward_todo` returns no new
identifier and leaves the state — the original todo included — unchanged. -/
theorem carry_forward_todo_no_match (db : DB) (todo_id target_meeting_id : Nat)
    (now : String) (t : Todo) (os : SectionRow)
    (ht : db.todos.find? (fun u => u.id == todo_id) = some t)
    (hs : db.sections.find? (fun x => x.id == t.section_id) = some os)
    (hmatch : find_target_section db target_meeting_id os = none) :
    carry_forward_todo db todo_id target_meeting_id now = (none, db) := by
  unfold carry_forward_todo
  simp only [ht, hs, hmatch]

/-- `List.find?` by id commutes with mapping an id-preserving function. -/
theorem find?_map_of_id_eq (l : List Todo) (tid : Nat) (f : Todo → Todo)
    (hf : ∀ u, (f u).id = u.id) :
    (l.map f).find? (fun u => u.id == tid) = (l.find? (fun u => u.id == tid)).map f := by
  rw [List.find?_map]
  have : ((fun u => u.id == tid) ∘ f) = (fun u => u.id == tid) := by
    funext u
    simp [Function.comp, hf u]
  rw [this]

/-- C7: starting from `done = false, completed_at = NULL`, toggling sets
`done = true` with a non-null `completed_at` and changes nothing else, and
toggling again restores the original state exactly. -/
theorem toggle_todo_roundtrip (db : DB) (todo_id : Nat) (now1 now2 : String) (t : Todo)
    (hfind : db.todos.find? (fun u => u.id == todo_id) = some t)
    (hopen : ∀ u ∈ db.todos, u.id = todo_id → u.done = false ∧ u.completed_at = none) :
    (toggle_todo db todo_id now1).todos =
      db.todos.map (fun u => if u.id == todo_id
        then { u with done := true, completed_at := some now1 } else u) ∧
    toggle_todo (toggle_todo db todo_id now1) todo_id now2 = db := by
  have htmem : t ∈ db.todos := List.mem_of_find?_eq_some hfind
  have htid : t.id = todo_id := by simpa using List.find?_some hfind
  have htdone : t.done = false := (hopen t htmem htid).1
  have h1 : toggle_todo db todo_id now1 =
      { db with todos := db.todos.map (fun u => if u.id == todo_id
          then { u with done := true, completed_at := some now1 } else u) } := by
    unfold toggle_todo
    simp [hfind, htdone]
  refine ⟨by rw [h1], ?_⟩
  rw [h1]
  have hfind2 : (db.todos.map (fun u => if u.id == todo_id
      then { u with done := true, completed_at := some now1 } else u)).find?
        (fun u => u.id == todo_id) = some { t with done := true, completed_at := some now1 } := by
    rw [find?_map_of_id_eq]
    · rw [hfind]
      simp [htid]
    · intro u
      by_cases h : u.id = todo_id <;> simp [h]
  have hmap : (db.todos.map (fun u => if u.id == todo_id
      then { u with done := true, completed_at := some now1 } else u)).map
        (fun u => if u.id == todo_id
          then { u with done := false, completed_at := none } else u) = db.todos := by
    rw [List.map_map]
    have key : ∀ u ∈ db.todos,
        ((fun u => if u.id == todo_id
            then ({ u with done := false, completed_at := none } : Todo) else u) ∘
         (fun u => if u.id == todo_id
            then ({ u with done := true, completed_at := some now1 } : Todo) else u)) u = u := by
      intro u hu
      by_cases h : u.id = todo_id
      · obtain ⟨hd, hc⟩ := hopen u hu h
        cases u
        simp_all
      · simp [Function.comp, h]
    rw [List.map_congr_left key]
    simp
  unfold toggle_todo
  simp only [hfind2, hmap]
  simp

/-- Witness for C7: toggling the sample open todo twice. -/
theorem toggle_todo_roundtrip_witness :
    (∀ u ∈ dbMain.todos, u.id = 1 → u.done = false ∧ u.completed_at = none) ∧
    ((toggle_todo dbMain 1 "T5").todos =
      dbMain.todos.map (fun u => if u.id == 1
        then { u with done := true, completed_at := some "T5" } else u) ∧
     toggle_todo (toggle_todo dbMain 1 "T5") 1 "T6" = dbMain) :=
  ⟨by decide, toggle_todo_roundtrip dbMain 1 "T5" "T6" tShip (by decide) (by decide)⟩

/-- C2: when the target meeting has a matching section, `carry_forward_todo`
returns a fresh identifier; exactly one new open todo is appended in the
matching section carrying the original's text, assignee, priority and due
date with a fresh `created_at`, and the original row is kept, now marked
done with a non-null `completed_at`. -/
theorem carry_forward_todo_success (db : DB) (todo_id target_meeting_id : Nat)
    (now : String) (t : Todo) (os ts : SectionRow)
    (ht : db.todos.find? (fun u => u.id == todo_id) = some t)
    (hs : db.sections.find? (fun x => x.id == t.section_id) = some os)
    (hmatch : find_target_section db target_meeting_id os = some ts)
    (hfresh : ∀ u ∈ db.todos, u.id < db.next_todo_id) :
    (carry_forward_todo db todo_id target_meeting_id now).1 = some db.next_todo_id ∧
    (carry_forward_todo db todo_id target_meeting_id now).2.todos =
      db.todos.map (fun u => if u.id == todo_id
        then { u with done := true, completed_at := some now } else u)
      ++ [{ id := db.next_todo_id, section_id := ts.id, text := t.text, done := false,
            assigned_to := t.assigned_to, due_date := t.due_date, priority := t.priority,
            created_by := t.created_by, created_at := now, completed_at := none }] := by
  have htid : t.id = todo_id := by simpa using List.find?_some ht
  have hlt : todo_id < db.next_todo_id := htid ▸ hfresh t (List.mem_of_find?_eq_some ht)
  have hne : (db.next_todo_id == todo_id) = false := by
    have h := Nat.ne_of_gt hlt
    exact beq_eq_false_iff_ne.mpr h
  unfold carry_forward_todo
  simp only [ht, hs, hmatch]
  constructor
  · trivial
  · dsimp only
    rw [List.map_append]
    simp [hne, Nat.ne_of_gt hlt]

/-- Witness for C2: carrying the sample todo into the follow-up meeting with
the matching Engineering section. -/
theorem carry_forward_todo_success_witness :
    (∀ u ∈ dbCarry.todos, u.id < dbCarry.next_todo_id) ∧
    ((carry_forward_todo dbCarry 1 2 "T9").1 = some dbCarry.next_todo_id ∧
     (carry_forward_todo dbCarry 1 2 "T9").2.todos =
       dbCarry.todos.map (fun u => if u.id == 1
         then { u with done := true, completed_at := some "T9" } else u)
       ++ [{ id := dbCarry.next_todo_id, section_id := sEng2.id, text := tShip.text,
             done := false, assigned_to := tShip.assigned_to, due_date := tShip.due_date,
             priority := tShip.priority, created_by := tShip.created_by,
             created_at := "T9", completed_at := none }]) :=
  ⟨by decide, carry_forward_todo_success dbCarry 1 2 "T9" tShip sEng sEng2
      (by decide) (by decide) (by decide) (by decide)⟩

/-- C1: `can_edit_section` follows the ordered decision table — a locked
meeting denies unconditionally; otherwise edit is allowed exactly for admins,
the snapshotted section reporter, and users listed (primary or backup) in
`department_reporter` for the section's department.  The hypotheses record
that row ids are positive, as SQLite `AUTOINCREMENT` guarantees. -/
theorem can_edit_section_decision_table (db : DB) (user : User) (s : SectionRow)
    (hu : user.id ≠ 0) (hdep : s.department_id ≠ some 0) :
    can_edit_section db user s = true ↔
      (is_meeting_locked db s.meeting_id = false ∧
       (user.role = "admin" ∨ s.reporter_id = some user.id ∨
        ∃ did, s.department_id = some did ∧
          ∃ dr ∈ db.department_reporters, dr.department_id = did ∧ dr.user_id = user.id)) := by
  by_cases hlock : is_meeting_locked db s.meeting_id = true
  · simp [can_edit_section, hlock]
  · have hlock' : is_meeting_locked db s.meeting_id = false := by simpa using hlock
    by_cases hrole : user.role = "admin"
    · simp [can_edit_section, hlock', hrole]
    · cases hrid : s.reporter_id with
      | some rid =>
        by_cases hr : rid = user.id
        · subst hr
          simp [can_edit_section, hlock', hrole, hrid, hu]
        · cases hdid : s.department_id with
          | some did =>
            have hd0 : did ≠ 0 := by
              intro h
              exact hdep (h ▸ hdid)
            simp [can_edit_section, hlock', hrole, hrid, hr, hdid, hd0, List.find?_isSome]
          | none =>
            simp [can_edit_section, hlock', hrole, hrid, hr, hdid]
      | none =>
        cases hdid : s.department_id with
        | some did =>
          have hd0 : did ≠ 0 := by
            intro h
            exact hdep (h ▸ hdid)
          simp [can_edit_section, hlock', hrole, hrid, hdid, hd0, List.find?_isSome]
        | none =>
          simp [can_edit_section, hlock', hrole, hrid, hdid]

/-- Witness for C1: Alice and the Engineering section of the sample state. -/
theorem can_edit_section_decision_table_witness :
    uAlice.id ≠ 0 ∧ sEng.department_id ≠ some 0 ∧
    (can_edit_section dbMain uAlice sEng = true ↔
      (is_meeting_locked dbMain sEng.meeting_id = false ∧
       (uAlice.role = "admin" ∨ sEng.reporter_id = some uAlice.id ∨
        ∃ did, sEng.department_id = some did ∧
          ∃ dr ∈ dbMain.department_reporters,
            dr.department_id = did ∧ dr.user_id = uAlice.id))) :=
  ⟨by decide, by decide,
   can_edit_section_decision_table dbMain uAlice sEng (by decide) (by decide)⟩

/-- Witness for C3: carrying the sample todo toward meeting 99, which has no
sections at all. -/
theorem carry_forward_todo_no_match_witness :
    dbMain.todos.find? (fun u => u.id == 1) = some tShip ∧
    dbMain.sections.find? (fun x => x.id == tShip.section_id) = some sEng ∧
    find_target_section dbMain 99 sEng = none ∧
    carry_forward_todo dbMain 1 99 "T9" = (none, dbMain) :=
  ⟨by decide, by decide, by decide,
   carry_forward_todo_no_match dbMain 1 99 "T9" tShip sEng (by decide) (by decide) (by decide)⟩

/-- A template section whose department is alive contributes exactly its
`mkTemplateSectionRow` to the build, at some fresh id. -/
theorem buildTemplateSections_mem_intro (db : DB) (mid : Nat) (ts : TemplateSection)
    (d : Department)
    (hd : db.departments.find? (fun x => x.id == ts.department_id) = some d)
    (harch : d.is_archived = false) :
    ∀ (l : List TemplateSection) (sid : Nat), ts ∈ l →
      ∃ sid2, mkTemplateSectionRow db mid sid2 d ts ∈ buildTemplateSections db mid sid l := by
  intro l
  induction l with
  | nil =>
    intro sid h
    cases h
  | cons a l ih =>
    intro sid hts
    rcases List.mem_cons.mp hts with rfl | hmem
    · refine ⟨sid, ?_⟩
      unfold buildTemplateSections
      simp only [hd, harch, Bool.false_eq_true, if_false]
      exact List.mem_cons_self _ _
    · unfold buildTemplateSections
      cases hfind : db.departments.find? (fun x => x.id == a.department_id) with
      | none => exact ih sid hmem
      | some da =>
        by_cases ha : da.is_archived = true
        · simp only [ha, if_true]
          exact ih sid hmem
        · have ha' : da.is_archived = false := by simpa using ha
          simp only [ha', Bool.false_eq_true, if_false]
          obtain ⟨sid2, h2⟩ := ih (sid + 1) hmem
          exact ⟨sid2, List.mem_cons_of_mem _ h2⟩

/-- Every section produced by the template build comes from a template
section whose department is alive, and equals its `mkTemplateSectionRow`. -/
theorem buildTemplateSections_mem_elim (db : DB) (mid : Nat) :
    ∀ (l : List TemplateSection) (sid : Nat) (s : SectionRow),
      s ∈ buildTemplateSections db mid sid l →
      ∃ ts ∈ l, ∃ d, db.departments.find? (fun x => x.id == ts.department_id) = some d ∧
        d.is_archived = false ∧ ∃ sid2, s = mkTemplateSectionRow db mid sid2 d ts := by
  intro l
  induction l with
  | nil =>
    intro sid s h
    unfold buildTemplateSections at h
    cases h
  | cons a l ih =>
    intro sid s h
    unfold buildTemplateSections at h
    cases hfind : db.departments.find? (fun x => x.id == a.department_id) with
    | none =>
      rw [hfind] at h
      obtain ⟨ts, hts, rest⟩ := ih sid s h
      exact ⟨ts, List.mem_cons_of_mem _ hts, rest⟩
    | some da =>
      rw [hfind] at h
      dsimp only at h
      by_cases ha : da.is_archived = true
      · rw [if_pos ha] at h
        obtain ⟨ts, hts, rest⟩ := ih sid s h
        exact ⟨ts, List.mem_cons_of_mem _ hts, rest⟩
      · have ha' : da.is_archived = false := by simpa using ha
        rw [if_neg ha] at h
        rcases List.mem_cons.mp h with rfl | hmem
        · exact ⟨a, List.mem_cons_self _ _, da, hfind, ha', sid, rfl⟩
        · obtain ⟨ts, hts, rest⟩ := ih (sid + 1) s hmem
          exact ⟨ts, List.mem_cons_of_mem _ hts, rest⟩

/-- C8: creating a meeting from a template on a fresh date succeeds, and its
new sections are exactly those of the template's section list whose
department still exists and is not archived — each snapshotting the
department's current primary reporter and the stored default content;
deleted or archived departments are skipped without error. -/
theorem create_meeting_from_template_spec (db : DB) (meeting_date : String)
    (template_id : Nat) (now : String)
    (hfresh : db.meetings.find? (fun m => m.date == meeting_date) = none) :
    (create_meeting_from_template db meeting_date template_id now).1 =
      some db.next_meeting_id ∧
    (create_meeting_from_template db meeting_date template_id now).2.sections =
      db.sections ++ buildTemplateSections db db.next_meeting_id db.next_section_id
        (sortTemplateSections
          (db.template_sections.filter (fun x => x.template_id == template_id))) ∧
    (∀ ts ∈ db.template_sections, ts.template_id = template_id →
      ∀ d, db.departments.find? (fun x => x.id == ts.department_id) = some d →
        d.is_archived = false →
        ∃ s ∈ buildTemplateSections db db.next_meeting_id db.next_section_id
            (sortTemplateSections
              (db.template_sections.filter (fun x => x.template_id == template_id))),
          s.meeting_id = db.next_meeting_id ∧ s.name = d.name ∧
          s.sort_order = ts.sort_order ∧ s.is_special = d.is_special ∧
          s.content = ts.default_content ∧ s.department_id = some d.id ∧
          s.reporter = reporterName (primary_reporter db d.id) ∧
          s.reporter_id = reporterId (primary_reporter db d.id)) ∧
    (∀ s ∈ buildTemplateSections db db.next_meeting_id db.next_section_id
        (sortTemplateSections
          (db.template_sections.filter (fun x => x.template_id == template_id))),
      ∃ ts ∈ db.template_sections, ts.template_id = template_id ∧
        ∃ d, db.departments.find? (fun x => x.id == ts.department_id) = some d ∧
          d.is_archived = false ∧ s.meeting_id = db.next_meeting_id ∧
          s.name = d.name ∧ s.content = ts.default_content ∧
          s.department_id = some d.id) := by
  refine ⟨?_, ?_, ?_, ?_⟩
  · unfold create_meeting_from_template
    simp [hfresh]
  · unfold create_meeting_from_template
    simp [hfresh]
  · intro ts hts htp d hd harch
    have hmemf : ts ∈ db.template_sections.filter (fun x => x.template_id == template_id) :=
      List.mem_filter.mpr ⟨hts, by simp [htp]⟩
    have hmems : ts ∈ sortTemplateSections
        (db.template_sections.filter (fun x => x.template_id == template_id)) := by
      unfold sortTemplateSections
      exact (List.perm_insertionSort _ _).mem_iff.mpr hmemf
    obtain ⟨sid2, h2⟩ :=
      buildTemplateSections_mem_intro db db.next_meeting_id ts d hd harch _
        db.next_section_id hmems
    exact ⟨mkTemplateSectionRow db db.next_meeting_id sid2 d ts, h2,
      rfl, rfl, rfl, rfl, rfl, rfl, rfl, rfl⟩
  · intro s hs
    obtain ⟨ts, htss, d, hd, harch, sid2, rfl⟩ :=
      buildTemplateSections_mem_elim db db.next_meeting_id _ db.next_section_id s hs
    have hmemf : ts ∈ db.template_sections.filter (fun x => x.template_id == template_id) := by
      unfold sortTemplateSections at htss
      exact (List.perm_insertionSort _ _).mem_iff.mp htss
    obtain ⟨hmem, hp⟩ := List.mem_filter.mp hmemf
    exact ⟨ts, hmem, by simpa using hp, d, hd, harch, rfl, rfl, rfl, rfl⟩

/-- Witness for C8 on the concrete template state: meeting creation from
template 7 on a fresh date. -/
theorem create_meeting_from_template_spec_witness :
    dbTpl.meetings.find? (fun m => m.date == "2026-04-01") = none ∧
    ((create_meeting_from_template dbTpl "2026-04-01" 7 "T9").1 =
       some dbTpl.next_meeting_id ∧
     (create_meeting_from_template dbTpl "2026-04-01" 7 "T9").2.sections =
       dbTpl.sections ++ buildTemplateSections dbTpl dbTpl.next_meeting_id
         dbTpl.next_section_id
         (sortTemplateSections (dbTpl.template_sections.filter (fun x => x.template_id == 7))) ∧
     (∀ ts ∈ dbTpl.template_sections, ts.template_id = 7 →
       ∀ d, dbTpl.departments.find? (fun x => x.id == ts.department_id) = some d →
         d.is_archived = false →
         ∃ s ∈ buildTemplateSections dbTpl dbTpl.next_meeting_id dbTpl.next_section_id
             (sortTemplateSections
               (dbTpl.template_sections.filter (fun x => x.template_id == 7))),
           s.meeting_id = dbTpl.next_meeting_id ∧ s.name = d.name ∧
           s.sort_order = ts.sort_order ∧ s.is_special = d.is_special ∧
           s.content = ts.default_content ∧ s.department_id = some d.id ∧
           s.reporter = reporterName (primary_reporter dbTpl d.id) ∧
           s.reporter_id = reporterId (primary_reporter dbTpl d.id)) ∧
     (∀ s ∈ buildTemplateSections dbTpl dbTpl.next_meeting_id dbTpl.next_section_id
         (sortTemplateSections (dbTpl.template_sections.filter (fun x => x.template_id == 7))),
       ∃ ts ∈ dbTpl.template_sections, ts.template_id = 7 ∧
         ∃ d, dbTpl.departments.find? (fun x => x.id == ts.department_id) = some d ∧
           d.is_archived = false ∧ s.meeting_id = dbTpl.next_meeting_id ∧
           s.name = d.name ∧ s.content = ts.default_content ∧
           s.department_id = some d.id)) :=
  ⟨by decide, create_meeting_from_template_spec dbTpl "2026-04-01" 7 "T9" (by decide)⟩

/-- `primary_reporter` only reads the `user` and `department_reporter`
tables. -/
theorem primary_reporter_congr (db db' : DB)
    (hu : db'.users = db.users) (hr : db'.department_reporters = db.department_reporters)
    (i : Nat) : primary_reporter db' i = primary_reporter db i := by
  unfold primary_reporter
  rw [hr]
  simp only [hu]

/-- `mkDeptSection` only reads the `user` and `department_reporter` tables. -/
theorem mkDeptSection_congr (db db' : DB) (mid sid : Nat) (d : Department)
    (hu : db'.users = db.users) (hr : db'.department_reporters = db.department_reporters) :
    mkDeptSection db' mid sid d = mkDeptSection db mid sid d := by
  unfold mkDeptSection
  rw [primary_reporter_congr db db' hu hr]

/-- `buildDeptSections` only reads the `user` and `department_reporter`
tables. -/
theorem buildDeptSections_congr (db db' : DB) (mid : Nat)
    (hu : db'.users = db.users) (hr : db'.department_reporters = db.department_reporters) :
    ∀ (l : List Department) (sid : Nat),
      buildDeptSections db' mid sid l = buildDeptSections db mid sid l := by
  intro l
  induction l with
  | nil => intro sid; rfl
  | cons d l ih =>
    intro sid
    unfold buildDeptSections
    rw [mkDeptSection_congr db db' mid sid d hu hr, ih]

/-- The department ids carried by the built sections, in order. -/
theorem buildDeptSections_map_dept (db : DB) (mid : Nat) :
    ∀ (l : List Department) (sid : Nat),
      (buildDeptSections db mid sid l).map (fun s => s.department_id) =
        l.map (fun d => some d.id) := by
  intro l
  induction l with
  | nil => intro sid; rfl
  | cons d l ih =>
    intro sid
    unfold buildDeptSections
    simp [mkDeptSection, ih]

/-- Every listed department contributes its `mkDeptSection` to the build. -/
theorem buildDeptSections_mem_intro (db : DB) (mid : Nat) (d : Department) :
    ∀ (l : List Department) (sid : Nat), d ∈ l →
      ∃ sid2, mkDeptSection db mid sid2 d ∈ buildDeptSections db mid sid l := by
  intro l
  induction l with
  | nil =>
    intro sid h
    cases h
  | cons a l ih =>
    intro sid h
    unfold buildDeptSections
    rcases List.mem_cons.mp h with rfl | hmem
    · exact ⟨sid, List.mem_cons_self _ _⟩
    · obtain ⟨sid2, h2⟩ := ih (sid + 1) hmem
      exact ⟨sid2, List.mem_cons_of_mem _ h2⟩

/-- Every built section is the `mkDeptSection` of a listed department. -/
theorem buildDeptSections_mem_elim (db : DB) (mid : Nat) :
    ∀ (l : List Department) (sid : Nat) (s : SectionRow),
      s ∈ buildDeptSections db mid sid l →
      ∃ d ∈ l, ∃ sid2, s = mkDeptSection db mid sid2 d := by
  intro l
  induction l with
  | nil =>
    intro sid s h
    unfold buildDeptSections at h
    cases h
  | cons a l ih =>
    intro sid s h
    unfold buildDeptSections at h
    rcases List.mem_cons.mp h with rfl | hmem
    · exact ⟨a, List.mem_cons_self _ _, sid, rfl⟩
    · obtain ⟨d, hd, sid2, rfl⟩ := ih (sid + 1) s hmem
      exact ⟨d, List.mem_cons_of_mem _ hd, sid2, rfl⟩

/-- Counting built sections by department id counts the departments. -/
theorem buildDeptSections_countP (db : DB) (mid i : Nat) :
    ∀ (l : List Department) (sid : Nat),
      (buildDeptSections db mid sid l).countP (fun s => s.department_id == some i) =
        l.countP (fun d => d.id == i) := by
  intro l
  induction l with
  | nil => intro sid; rfl
  | cons d l ih =>
    intro sid
    unfold buildDeptSections
    rw [List.countP_cons, List.countP_cons, ih]
    rfl

/-- In a list of departments with no duplicated ids, a member's id is hit
exactly once. -/
theorem countP_dept_id_eq_one :
    ∀ (l : List Department) (d : Department), d ∈ l →
      (l.map (fun x => x.id)).Nodup →
      l.countP (fun x => x.id == d.id) = 1 := by
  intro l
  induction l with
  | nil =>
    intro d h
    cases h
  | cons a l ih =>
    intro d hmem hnodup
    simp only [List.map_cons, List.nodup_cons] at hnodup
    obtain ⟨hnotin, hnodup2⟩ := hnodup
    rw [List.countP_cons]
    rcases List.mem_cons.mp hmem with rfl | hmem2
    · have hz : l.countP (fun x => x.id == d.id) = 0 := by
        rw [List.countP_eq_zero]
        intro x hx
        simp only [beq_iff_eq]
        intro hxd
        exact hnotin (hxd ▸ List.mem_map_of_mem _ hx)
      simp [hz]
    · have hne : a.id ≠ d.id := by
        intro h
        exact hnotin (h ▸ List.mem_map_of_mem _ hmem2)
      rw [ih d hmem2 hnodup2]
      simp [hne]

/-- Fallback sections all belong to the new meeting. -/
theorem buildDefaultSections_meeting_id (mid : Nat) :
    ∀ (l : List (String × String × Bool)) (sid i : Nat) (s : SectionRow),
      s ∈ buildDefaultSections mid sid i l → s.meeting_id = mid := by
  intro l
  induction l with
  | nil =>
    intro sid i s h
    unfold buildDefaultSections at h
    cases h
  | cons e l ih =>
    intro sid i s h
    unfold buildDefaultSections at h
    rcases List.mem_cons.mp h with rfl | hmem
    · rfl
    · exact ih (sid + 1) (i + 1) s hmem

/-- Reduction of `create_meeting` on a fresh date without `copy_from`: the
meeting row is inserted and the sections are built from the live non-archived
departments, falling back to `DEFAULT_SECTIONS` when there are none. -/
theorem create_meeting_fresh_none_reduce (db : DB) (meeting_date now : String)
    (hfresh : db.meetings.find? (fun m => m.date == meeting_date) = none) :
    create_meeting db meeting_date none now =
      (if (sortDepartments (db.departments.filter (fun d => d.is_archived = false))).isEmpty then
        (some db.next_meeting_id,
          { db with
            meetings := db.meetings ++
              [{ id := db.next_meeting_id, date := meeting_date, created_at := now,
                 status := "open", locked_by := none, locked_at := none, template_id := none }],
            sections := db.sections ++
              buildDefaultSections db.next_meeting_id db.next_section_id 0 DEFAULT_SECTIONS,
            next_meeting_id := db.next_meeting_id + 1,
            next_section_id := db.next_section_id +
              (buildDefaultSections db.next_meeting_id db.next_section_id 0
                DEFAULT_SECTIONS).length })
      else
        (some db.next_meeting_id,
          { db with
            meetings := db.meetings ++
              [{ id := db.next_meeting_id, date := meeting_date, created_at := now,
                 status := "open", locked_by := none, locked_at := none, template_id := none }],
            sections := db.sections ++
              buildDeptSections db db.next_meeting_id db.next_section_id
                (sortDepartments (db.departments.filter (fun d => d.is_archived = false))),
            next_meeting_id := db.next_meeting_id + 1,
            next_section_id := db.next_section_id +
              (buildDeptSections db db.next_meeting_id db.next_section_id
                (sortDepartments
                  (db.departments.filter (fun d => d.is_archived = false)))).length })) := by
  unfold create_meeting
  rw [hfresh]
  simp only [Option.isSome_none, Bool.false_eq_true, if_false]
  by_cases hso :
      (sortDepartments (db.departments.filter (fun d => d.is_archived = false))).isEmpty = true
  · rw [if_pos hso, if_pos hso]
  · rw [if_neg hso, if_neg hso]
    rw [buildDeptSections_congr db
      { db with
        meetings := db.meetings ++
          [{ id := db.next_meeting_id, date := meeting_date, created_at := now,
             status := "open", locked_by := none, locked_at := none, template_id := none }],
        next_meeting_id := db.next_meeting_id + 1 }
      db.next_meeting_id rfl rfl]

/-- C5 (amended): blank creation on a fresh date returns the new meeting id
and appends exactly one section per non-archived department — snapshotting
name, sort order, special flag and the department's current primary reporter
(empty name / null id when there is none), with empty content — and appends
the fixed `DEFAULT_SECTIONS` fallback exactly when there are zero
non-archived departments. -/
theorem create_meeting_blank_spec (db : DB) (meeting_date now : String)
    (hfresh : db.meetings.find? (fun m => m.date == meeting_date) = none)
    (hnodup : (db.departments.map (fun d => d.id)).Nodup) :
    ∃ newSecs,
      (create_meeting db meeting_date none now).1 = some db.next_meeting_id ∧
      (create_meeting db meeting_date none now).2.sections = db.sections ++ newSecs ∧
      (∀ s ∈ newSecs, s.meeting_id = db.next_meeting_id) ∧
      (∀ d ∈ db.departments, d.is_archived = false →
        (newSecs.filter (fun s => s.department_id == some d.id)).length = 1 ∧
        ∃ s ∈ newSecs, s.name = d.name ∧ s.sort_order = d.sort_order ∧
          s.is_special = d.is_special ∧ s.content = "" ∧ s.department_id = some d.id ∧
          s.reporter = reporterName (primary_reporter db d.id) ∧
          s.reporter_id = reporterId (primary_reporter db d.id)) ∧
      (db.departments.filter (fun d => d.is_archived = false) ≠ [] →
        ∀ s ∈ newSecs, ∃ d ∈ db.departments, d.is_archived = false ∧
          s.department_id = some d.id) ∧
      (db.departments.filter (fun d => d.is_archived = false) = [] →
        newSecs = buildDefaultSections db.next_meeting_id db.next_section_id 0
          DEFAULT_SECTIONS) := by
  rw [create_meeting_fresh_none_reduce db meeting_date now hfresh]
  by_cases hemp : db.departments.filter (fun d => d.is_archived = false) = []
  · have hso :
        (sortDepartments (db.departments.filter (fun d => d.is_archived = false))).isEmpty
          = true := by
      rw [hemp]
      rfl
    rw [if_pos hso]
    refine ⟨buildDefaultSections db.next_meeting_id db.next_section_id 0 DEFAULT_SECTIONS,
      rfl, rfl, ?_, ?_, ?_, ?_⟩
    · exact fun s hs => buildDefaultSections_meeting_id _ _ _ _ s hs
    · intro d hd harch
      exfalso
      have hm : d ∈ db.departments.filter (fun x => x.is_archived = false) :=
        List.mem_filter.mpr ⟨hd, by simp [harch]⟩
      rw [hemp] at hm
      cases hm
    · intro hne
      exact absurd hemp hne
    · intro _
      rfl
  · have hlen :
        (sortDepartments (db.departments.filter (fun d => d.is_archived = false))).length =
          (db.departments.filter (fun d => d.is_archived = false)).length :=
      (List.perm_insertionSort _ _).length_eq
    have hso :
        ¬ (sortDepartments (db.departments.filter (fun d => d.is_archived = false))).isEmpty
            = true := by
      simp only [List.isEmpty_iff]
      intro h
      apply hemp
      have hz := congrArg List.length h
      rw [hlen] at hz
      exact List.eq_nil_of_length_eq_zero hz
    rw [if_neg hso]
    refine ⟨buildDeptSections db db.next_meeting_id db.next_section_id
        (sortDepartments (db.departments.filter (fun d => d.is_archived = false))),
      rfl, rfl, ?_, ?_, ?_, ?_⟩
    · intro s hs
      obtain ⟨d, hd, sid2, rfl⟩ := buildDeptSections_mem_elim db _ _ _ s hs
      rfl
    · intro d hd harch
      have hmemf : d ∈ db.departments.filter (fun x => x.is_archived = false) :=
        List.mem_filter.mpr ⟨hd, by simp [harch]⟩
      have hmems :
          d ∈ sortDepartments (db.departments.filter (fun x => x.is_archived = false)) := by
        unfold sortDepartments
        exact (List.perm_insertionSort _ _).mem_iff.mpr hmemf
      constructor
      · have hperm : List.Perm
            (sortDepartments (db.departments.filter (fun x => x.is_archived = false)))
            (db.departments.filter (fun x => x.is_archived = false)) :=
          List.perm_insertionSort _ _
        rw [← List.countP_eq_length_filter, buildDeptSections_countP, hperm.countP_eq]
        apply countP_dept_id_eq_one _ d hmemf
        have hsub : List.Sublist (db.departments.filter (fun x => x.is_archived = false))
            db.departments := List.filter_sublist _
        exact (hsub.map (fun x => x.id)).nodup hnodup
      · obtain ⟨sid2, h2⟩ :=
          buildDeptSections_mem_intro db db.next_meeting_id d _ db.next_section_id hmems
        exact ⟨mkDeptSection db db.next_meeting_id sid2 d, h2,
          rfl, rfl, rfl, rfl, rfl, rfl, rfl⟩
    · intro _ s hs
      obtain ⟨d, hd, sid2, rfl⟩ := buildDeptSections_mem_elim db _ _ _ s hs
      have hmemf : d ∈ db.departments.filter (fun x => x.is_archived = false) := by
        unfold sortDepartments at hd
        exact (List.perm_insertionSort _ _).mem_iff.mp hd
      obtain ⟨hmem, hp⟩ := List.mem_filter.mp hmemf
      exact ⟨d, hmem, by simpa using hp, rfl⟩
    · intro h
      exact absurd h hemp

/-- Witness for C5 on the concrete state with one live department whose
primary reporter is Alice. -/
theorem create_meeting_blank_spec_witness :
    dbMain.meetings.find? (fun m => m.date == "2026-03-08") = none ∧
    (dbMain.departments.map (fun d => d.id)).Nodup ∧
    (∃ newSecs,
      (create_meeting dbMain "2026-03-08" none "T9").1 = some dbMain.next_meeting_id ∧
      (create_meeting dbMain "2026-03-08" none "T9").2.sections =
        dbMain.sections ++ newSecs ∧
      (∀ s ∈ newSecs, s.meeting_id = dbMain.next_meeting_id) ∧
      (∀ d ∈ dbMain.departments, d.is_archived = false →
        (newSecs.filter (fun s => s.department_id == some d.id)).length = 1 ∧
        ∃ s ∈ newSecs, s.name = d.name ∧ s.sort_order = d.sort_order ∧
          s.is_special = d.is_special ∧ s.content = "" ∧ s.department_id = some d.id ∧
          s.reporter = reporterName (primary_reporter dbMain d.id) ∧
          s.reporter_id = reporterId (primary_reporter dbMain d.id)) ∧
      (dbMain.departments.filter (fun d => d.is_archived = false) ≠ [] →
        ∀ s ∈ newSecs, ∃ d ∈ dbMain.departments, d.is_archived = false ∧
          s.department_id = some d.id) ∧
      (dbMain.departments.filter (fun d => d.is_archived = false) = [] →
        newSecs = buildDefaultSections dbMain.next_meeting_id dbMain.next_section_id 0
          DEFAULT_SECTIONS)) :=
  ⟨by decide, by decide,
   create_meeting_blank_spec dbMain "2026-03-08" "T9" (by decide) (by decide)⟩

/-- Counterexample to C5 as literally stated: in a state whose department
table is non-empty but entirely archived, the claim predicts one section per
non-archived department (none) with the fallback reserved for an empty
department table — yet the code appends the `DEFAULT_SECTIONS` fallback,
whose sections correspond to no non-archived department. -/
theorem create_meeting_c5_counterexample :
    ¬ (dbAllArchived.departments = [] ∨
       ∀ s ∈ (create_meeting dbAllArchived "2026-03-01" none "T0").2.sections,
         ∃ d ∈ dbAllArchived.departments, d.is_archived = false ∧
           s.department_id = some d.id) := by
  decide

/-- C10 (amended): on a fresh date, a `copy_from` date that matches no
existing meeting and differs from the new date itself makes `create_meeting`
behave exactly like blank creation — it still creates the meeting, builds
sections from the live non-archived department table, and returns the new
meeting's id. -/
theorem create_meeting_copy_from_missing (db : DB) (meeting_date cf now : String)
    (hfresh : db.meetings.find? (fun m => m.date == meeting_date) = none)
    (hcf : db.meetings.find? (fun m => m.date == cf) = none)
    (hne : cf ≠ meeting_date) :
    create_meeting db meeting_date (some cf) now =
      create_meeting db meeting_date none now ∧
    (create_meeting db meeting_date (some cf) now).1 = some db.next_meeting_id := by
  have heq : create_meeting db meeting_date (some cf) now =
      create_meeting db meeting_date none now := by
    unfold create_meeting
    rw [hfresh]
    simp only [Option.isSome_none, Bool.false_eq_true, if_false]
    by_cases hcf0 : cf = ""
    · subst hcf0
      rfl
    · have h0 : (cf == "") = false := beq_eq_false_iff_ne.mpr hcf0
      simp only [h0, Bool.false_eq_true, if_false]
      have happ : (db.meetings ++
          [({ id := db.next_meeting_id, date := meeting_date, created_at := now,
              status := "open", locked_by := none, locked_at := none,
              template_id := none } : Meeting)]).find? (fun m => m.date == cf) = none := by
        rw [List.find?_eq_none]
        intro m hm
        rcases List.mem_append.mp hm with h1 | h2
        · exact List.find?_eq_none.mp hcf m h1
        · rcases List.mem_cons.mp h2 with rfl | h3
          · intro hc
            simp only [beq_iff_eq] at hc
            exact hne hc.symm
          · cases h3
      simp only [happ]
  refine ⟨heq, ?_⟩
  rw [heq, create_meeting_fresh_none_reduce db meeting_date now hfresh]
  split <;> rfl

/-- Witness for C10 (amended) on the concrete state: a `copy_from` date
matching nothing. -/
theorem create_meeting_copy_from_missing_witness :
    dbMain.meetings.find? (fun m => m.date == "2026-03-08") = none ∧
    dbMain.meetings.find? (fun m => m.date == "2099-01-01") = none ∧
    "2099-01-01" ≠ "2026-03-08" ∧
    (create_meeting dbMain "2026-03-08" (some "2099-01-01") "T9" =
       create_meeting dbMain "2026-03-08" none "T9" ∧
     (create_meeting dbMain "2026-03-08" (some "2099-01-01") "T9").1 =
       some dbMain.next_meeting_id) :=
  ⟨by decide, by decide, by decide,
   create_meeting_copy_from_missing dbMain "2026-03-08" "2099-01-01" "T9"
     (by decide) (by decide) (by decide)⟩

/-- Counterexample to C10 as literally stated: `copy_from` equal to the new
date itself matches no existing meeting, yet the self-copy finds the freshly
inserted (still empty) meeting and produces a meeting with no sections at
all, instead of the department sections blank creation would build. -/
theorem create_meeting_c10_counterexample :
    (∀ m ∈ dbMain.meetings, m.date ≠ "2026-03-08") ∧
    (create_meeting dbMain "2026-03-08" (some "2026-03-08") "T9").1 = some 2 ∧
    (create_meeting dbMain "2026-03-08" (some "2026-03-08") "T9").2.sections =
      dbMain.sections ∧
    (create_meeting dbMain "2026-03-08" none "T9").2.sections ≠ dbMain.sections := by
  decide
